import Mathlib

set_option maxRecDepth 100000

/-!
Verification development for the pyladiesams pyro-may2023 workshop repository.

The repository consists of two Jupyter notebooks:
  * a Bayesian linear regression notebook (the "regression notebook",
    `part_000`), a worked example that loads two parquet datasets, defines
    `RevenueModel` and `RevenueGuide`, trains them with Pyro SVI and
    visualizes the posterior; and
  * a variational autoencoder notebook (the "VAE notebook",
    `Part 2 - Variational Autoencoder - Empty Template.ipynb`), a
    fill-in-the-blank template defining `Encoder`, `Decoder` and `VAE`
    with placeholder bodies.

The development has two layers:
  1. a syntactic embedding of every code cell of both notebooks as a small
     Python statement/expression AST (`PExpr`, `PStmt`), together with
     executable, fuel-bounded scanners over that AST (every scanner returns
     `none` when its fuel runs out, so a result of the form `some _` proves
     the scan traversed the complete AST); and
  2. an executable semantic model of the pieces of code whose behaviour the
     claims are about: the two SVI training loops, the decoder's final
     `reshape`, the `evaluate` function, and `RevenueModel.forward` together
     with the `Predictive` posterior sampler.
-/

/-- Python expressions, as they occur in the two notebooks.  A dotted chain
of plain identifiers (for instance `pd.read_parquet` or `svi.step`) is kept
as a single `name`; `attr` is used only for attribute access on a non-name
expression such as `dist.Normal(a, b).sample`.  Python float literals are
carried as exact rationals. -/
inductive PExpr where
  | noneLit : PExpr
  | boolLit : Bool → PExpr
  | intLit : Int → PExpr
  | floatLit : ℚ → PExpr
  | strLit : String → PExpr
  | name : String → PExpr
  | tupleLit : List PExpr → PExpr
  | listLit : List PExpr → PExpr
  | dictLit : List (String × PExpr) → PExpr
  | call : PExpr → List PExpr → List (String × PExpr) → PExpr
  | attr : PExpr → String → PExpr
  | sub : PExpr → List PExpr → PExpr
  | sliceAll : PExpr
  | bin : String → PExpr → PExpr → PExpr
  | fstr : List PExpr → PExpr
  | listComp : PExpr → List String → PExpr → PExpr

/-- Python statements, as they occur in the two notebooks.  Assignment
targets are kept as strings (`self.conv1`, `z_loc`); a tuple assignment such
as `z_loc, z_scale = None` has several targets.  `funcDef` carries each
parameter together with its default expression, when one is present. -/
inductive PStmt where
  | importLine : String → PStmt
  | shell : String → PStmt
  | assign : List String → PExpr → PStmt
  | augAdd : String → PExpr → PStmt
  | exprStmt : PExpr → PStmt
  | ret : PExpr → PStmt
  | passStmt : PStmt
  | withBlock : PExpr → List PStmt → PStmt
  | forIn : List String → PExpr → List PStmt → PStmt
  | ifBlock : PExpr → List PStmt → PStmt
  | funcDef : String → List (String × Option PExpr) → List PStmt → PStmt
  | classDef : String → List String → List PStmt → PStmt
  | tryBlock : List PStmt → List PStmt → PStmt
  | raiseStmt : PExpr → PStmt
  | yieldStmt : PExpr → PStmt

/-- The immediate child expressions of an expression. -/
def PExpr.children : PExpr → List PExpr
  | .tupleLit es => es
  | .listLit es => es
  | .dictLit kvs => kvs.map Prod.snd
  | .call f args kws => f :: args ++ kws.map Prod.snd
  | .attr b _ => [b]
  | .sub b ix => b :: ix
  | .bin _ l r => [l, r]
  | .fstr parts => parts
  | .listComp elt _ it => [elt, it]
  | _ => []

/-- The statements nested directly inside a statement (loop, `with`, `if`,
function and class bodies, `try` bodies and handlers). -/
def PStmt.childStmts : PStmt → List PStmt
  | .withBlock _ body => body
  | .forIn _ _ body => body
  | .ifBlock _ body => body
  | .funcDef _ _ body => body
  | .classDef _ _ body => body
  | .tryBlock body handlers => body ++ handlers
  | _ => []

/-- The expressions occurring directly in a statement (not inside nested
statements): right-hand sides, the expression of an expression statement or
`return`, the context of a `with`, the iterator of a `for`, the condition of
an `if`, and the parameter defaults of a function definition. -/
def PStmt.topExprs : PStmt → List PExpr
  | .assign _ rhs => [rhs]
  | .augAdd _ rhs => [rhs]
  | .exprStmt e => [e]
  | .ret e => [e]
  | .withBlock ctx _ => [ctx]
  | .forIn _ iter _ => [iter]
  | .ifBlock cond _ => [cond]
  | .funcDef _ params _ => params.filterMap Prod.snd
  | .raiseStmt e => [e]
  | .yieldStmt e => [e]
  | _ => []

/-- All subexpressions (pre-order) of a list of expressions.  The fuel bound
decreases on every recursive call; `none` means the fuel was insufficient,
so a `some` result is a complete traversal. -/
def subExprsL : Nat → List PExpr → Option (List PExpr)
  | 0, _ => none
  | _ + 1, [] => some []
  | fuel + 1, e :: es => do
      let kids ← subExprsL fuel e.children
      let tail ← subExprsL fuel es
      pure (e :: kids ++ tail)

/-- All statements (pre-order, descending into nested bodies) of a list of
statements.  `none` means the fuel was insufficient. -/
def flattenStmts : Nat → List PStmt → Option (List PStmt)
  | 0, _ => none
  | _ + 1, [] => some []
  | fuel + 1, s :: ss => do
      let kids ← flattenStmts fuel s.childStmts
      let tail ← flattenStmts fuel ss
      pure (s :: kids ++ tail)

/-- All subexpressions of all statements of a block, at any nesting depth. -/
def deepExprs (fuel : Nat) (ss : List PStmt) : Option (List PExpr) := do
  let flat ← flattenStmts fuel ss
  subExprsL fuel (flat.map PStmt.topExprs).flatten

/-- The textual name under which a call applies its function: the dotted
name itself for `f(...)` with `f` a (dotted) identifier, and `"." ++ m` for
a method call `e.m(...)` on a non-name expression. -/
def callNameOf : PExpr → Option String
  | .call (.name f) _ _ => some f
  | .call (.attr _ m) _ _ => some ("." ++ m)
  | _ => none

/-- Whether an expression is the literal `None`. -/
def isNoneLit : PExpr → Bool
  | .noneLit => true
  | _ => false

/-- Whether an expression is a call with `None` as an immediate positional
or keyword argument, such as `pyro.sample("latent", None)` or
`pyro.infer.SVI(model=None, ...)`. -/
def callHasNoneArg : PExpr → Bool
  | .call _ args kws => args.any isNoneLit || (kws.map Prod.snd).any isNoneLit
  | _ => false

/-- All (dotted) call names occurring anywhere in a block. -/
def callNames (fuel : Nat) (ss : List PStmt) : Option (List String) :=
  (deepExprs fuel ss).map (·.filterMap callNameOf)

/-- Substring test on strings, by explicit recursion over the character
lists (so that it evaluates inside the kernel). -/
def matchesAt : List Char → List Char → Bool
  | _, [] => true
  | [], _ :: _ => false
  | h :: hs, p :: ps => h == p && matchesAt hs ps

/-- Whether `pat` occurs as a contiguous substring of the first list. -/
def hasSubChars : List Char → List Char → Bool
  | [], pat => pat.isEmpty
  | h :: t, pat => matchesAt (h :: t) pat || hasSubChars t pat

/-- Whether the string `pat` occurs inside `s`. -/
def containsSub (s pat : String) : Bool := hasSubChars s.toList pat.toList

/-- Whether a statement is a fill-in-the-blank placeholder, given the
number of statements in its enclosing block:
  * an assignment whose entire right-hand side is `None`
    (`self.conv1 = None`, `EPOCHS = None`);
  * a `with None:` block;
  * a bare `pass` that is not the sole statement of its block (a `pass`
    standing alone, as in `class RevenueGuide(...): pass`, is required by
    Python syntax and stands in for nothing);
  * any statement applying a call with `None` as an immediate argument
    (`pyro.sample("latent", None)`, `Image.fromarray(None)`). -/
def stmtIsPlaceholder (fuel : Nat) (blockLen : Nat) : PStmt → Option Bool
  | .assign _ .noneLit => some true
  | .withBlock .noneLit _ => some true
  | .passStmt => some (decide (1 < blockLen))
  | s => do
      let es ← subExprsL fuel s.topExprs
      pure (es.any callHasNoneArg)

/-- Number of placeholder statements in a block, descending into nested
bodies; the second argument is the length of the enclosing block. -/
def phCount : Nat → Nat → List PStmt → Option Nat
  | 0, _, _ => none
  | _ + 1, _, [] => some 0
  | fuel + 1, blockLen, s :: rest => do
      let b ← stmtIsPlaceholder fuel blockLen s
      let kids := s.childStmts
      let inner ← phCount fuel kids.length kids
      let tail ← phCount fuel blockLen rest
      pure ((if b then 1 else 0) + inner + tail)

/-- Number of placeholder statements anywhere in a block. -/
def placeholderCount (fuel : Nat) (block : List PStmt) : Option Nat :=
  phCount fuel block.length block

/-- Whether a statement is completed behaviour of its own: an assignment
whose right-hand side is a call mentioning no `None` anywhere, or a call
statement with at least one argument and no `None` anywhere (this excludes
the argumentless boilerplate `super().__init__()`). -/
def stmtIsSubstantive (fuel : Nat) : PStmt → Option Bool
  | .assign _ rhs =>
      match rhs with
      | .call f args kws => do
          let es ← subExprsL fuel [PExpr.call f args kws]
          pure (!es.any isNoneLit)
      | _ => some false
  | .exprStmt e =>
      match e with
      | .call f args kws => do
          let es ← subExprsL fuel [PExpr.call f args kws]
          pure (decide (0 < args.length + kws.length) && !es.any isNoneLit)
      | _ => some false
  | _ => some false

/-- Number of substantive statements in a block, descending into nested
bodies. -/
def sbCount : Nat → List PStmt → Option Nat
  | 0, _ => none
  | _ + 1, [] => some 0
  | fuel + 1, s :: rest => do
      let b ← stmtIsSubstantive fuel s
      let inner ← sbCount fuel s.childStmts
      let tail ← sbCount fuel rest
      pure ((if b then 1 else 0) + inner + tail)

/-- Global fuel bound for all scans; the two notebooks together hold a few
hundred AST nodes, far below this bound. -/
def FUEL : Nat := 2000

/-!
Syntactic embedding of the regression notebook
(`Linear Bayesian Modelling with Pyro`, file `part_000`).  Markdown cells
carry no code and are omitted; the code cells appear in notebook order.
-/

/-- Regression notebook, cell 1: dependency installation. -/
def regressionCell1 : List PStmt := [.shell "pip3 install -r requirements.txt"]

/-- Regression notebook, cell 2: imports. -/
def regressionCell2 : List PStmt :=
  [.importLine "import pandas as pd",
   .importLine "import numpy as np",
   .importLine "import torch",
   .importLine "from torch import nn",
   .importLine "import pyro",
   .importLine "from pyro.nn import PyroSample, PyroParam, PyroModule",
   .importLine "import pyro.distributions as dist",
   .importLine "from pyro import poutine",
   .importLine "from plotly.subplots import make_subplots",
   .importLine "import plotly.graph_objects as go",
   .importLine "import plotly.express as px",
   .importLine "from typing import List",
   .importLine "from tqdm import tqdm"]

/-- Regression notebook, cell 3: loading the two parquet datasets and
converting them to tensors. -/
def regressionCell3 : List PStmt :=
  [.assign ["media"]
     (.call (.name "pd.read_parquet") [.strLit "./assets/media_prepped.parquet"] []),
   .assign ["sales"]
     (.call (.name "pd.read_parquet") [.strLit "./assets/sales_prepped.parquet"] []),
   .assign ["X"]
     (.call (.name "torch.tensor") [.call (.name "media.to_numpy") [] []]
        [("dtype", .name "torch.float32")]),
   .assign ["y"]
     (.call (.name "torch.tensor") [.call (.name "sales.to_numpy") [] []]
        [("dtype", .name "torch.float32")])]

/-- The body of `RevenueModel.__init__`: builds the linear layer as a
`PyroModule`, replaces its weight and bias by `PyroSample` priors (a folded
normal and a uniform) and records the two shape attributes.  The float
literals `0.5`, `0.`, `1000.` and `10_000.` are carried as exact
rationals. -/
def RevenueModel.initDef : PStmt :=
  .funcDef "__init__"
    [("self", none),
     ("media_channels", some (.intLit 7)),
     ("sales_products", some (.intLit 2)),
     ("bias_lower_bound", some (.bin "*" (.listLit [.floatLit 0]) (.intLit 2))),
     ("bias_upper_bound", some (.bin "*" (.listLit [.floatLit 10000]) (.intLit 2)))]
    [.exprStmt (.call (.attr (.call (.name "super") [] []) "__init__") [] []),
     .assign ["self.linear_layer"]
       (.call (.sub (.name "PyroModule") [.name "nn.Linear"]) []
          [("in_features", .name "media_channels"),
           ("out_features", .name "sales_products")]),
     .assign ["self.linear_layer.weight"]
       (.call (.name "PyroSample")
          [.call
             (.attr
                (.call (.name "dist.FoldedDistribution")
                   [.call (.name "dist.Normal")
                      [.bin "*"
                         (.call (.name "torch.ones")
                            [.name "sales_products", .name "media_channels"] [])
                         (.floatLit (1 / 2)),
                       .call (.name "torch.ones")
                         [.name "sales_products", .name "media_channels"] []] []]
                   [])
                "to_event")
             [.intLit 2] []]
          []),
     .assign ["self.linear_layer.bias"]
       (.call (.name "PyroSample")
          [.call
             (.attr
                (.call (.name "dist.Uniform")
                   [.call (.name "torch.tensor") [.name "bias_lower_bound"] [],
                    .call (.name "torch.tensor") [.name "bias_upper_bound"] []] [])
                "to_event")
             [.intLit 1] []]
          []),
     .assign ["self.sales_products"] (.name "sales_products"),
     .assign ["self.media_channels"] (.name "media_channels")]

/-- The body of `RevenueModel.forward(self, X, y=None)`: computes
`y_hat = self.linear_layer(X)`, samples `noise` from an expanded
half-normal, opens the `sample` and `data` plates, samples the `obs` site
from `Normal(y_hat, noise)` conditioned on `y`, and returns `y_hat`. -/
def RevenueModel.forwardDef : PStmt :=
  .funcDef "forward"
    [("self", none), ("X", none), ("y", some .noneLit)]
    [.assign ["y_hat"] (.call (.name "self.linear_layer") [.name "X"] []),
     .assign ["noise"]
       (.call (.name "pyro.sample")
          [.strLit "noise",
           .call
             (.attr
                (.call
                   (.attr
                      (.call (.name "dist.HalfNormal")
                         [.call (.name "torch.tensor")
                            [.listLit [.floatLit 1000, .floatLit 1000]] []] [])
                      "expand")
                   [.listLit [.intLit 1, .intLit 2]] [])
                "to_event")
             [.intLit 1] []]
          []),
     .withBlock
       (.call (.name "pyro.plate") [.strLit "sample", .name "self.sales_products"] [])
       [.withBlock
          (.call (.name "pyro.plate")
             [.strLit "data", .call (.name "len") [.name "X"] []] [])
          [.exprStmt
             (.call (.name "pyro.sample")
                [.strLit "obs",
                 .call (.name "dist.Normal") [.name "y_hat", .name "noise"] []]
                [("obs", .name "y")])]],
     .ret (.name "y_hat")]

/-- The `RevenueModel` class: a `PyroModule` with the two methods above. -/
def RevenueModel.classAst : PStmt :=
  .classDef "RevenueModel" ["PyroModule"] [RevenueModel.initDef, RevenueModel.forwardDef]

/-- Regression notebook, cell 4: the `RevenueModel` definition. -/
def regressionCell4 : List PStmt := [RevenueModel.classAst]

/-- Regression notebook, cell 5: rendering the model graph. -/
def regressionCell5 : List PStmt :=
  [.exprStmt
     (.call (.name "pyro.render_model")
        [.call (.name "RevenueModel") [] []]
        [("model_args", .tupleLit [.name "X", .name "y"]),
         ("render_params", .boolLit true),
         ("render_distributions", .boolLit true)])]

/-- Regression notebook, cell 6: tracing the model shapes. -/
def regressionCell6 : List PStmt :=
  [.assign ["trace"]
     (.call
        (.attr (.call (.name "poutine.trace") [.call (.name "RevenueModel") [] []] [])
           "get_trace")
        [.name "X", .name "y"] []),
   .exprStmt (.call (.name "trace.compute_log_prob") [] []),
   .exprStmt (.call (.name "print") [.call (.name "trace.format_shapes") [] []] [])]

/-- The `RevenueGuide` class: a trivial subclass of the framework's
`AutoDiagonalNormal` autoguide; its sole statement is the syntactically
required `pass`. -/
def RevenueGuide.classAst : PStmt :=
  .classDef "RevenueGuide" ["pyro.infer.autoguide.AutoDiagonalNormal"] [.passStmt]

/-- Regression notebook, cell 7: the `RevenueGuide` definition. -/
def regressionCell7 : List PStmt := [RevenueGuide.classAst]

/-- Regression notebook, cell 8: SVI setup and the training loop over
`EPOCHS = 1_000` epochs, followed by the loss-curve plot. -/
def regressionCell8 : List PStmt :=
  [.exprStmt (.call (.name "pyro.clear_param_store") [] []),
   .assign ["model"] (.call (.name "RevenueModel") [] []),
   .assign ["guide"] (.call (.name "RevenueGuide") [.name "model"] []),
   .assign ["optimizer"]
     (.call (.name "pyro.optim.Adam") [.dictLit [("lr", .floatLit (1 / 1000))]] []),
   .assign ["loss"]
     (.call (.name "pyro.infer.Trace_ELBO") [] [("retain_graph", .boolLit false)]),
   .assign ["svi"]
     (.call (.name "pyro.infer.SVI") []
        [("model", .name "model"), ("guide", .name "guide"),
         ("optim", .name "optimizer"), ("loss", .name "loss")]),
   .assign ["EPOCHS"] (.intLit 1000),
   .assign ["losses"] (.listLit []),
   .forIn ["epoch"]
     (.call (.name "tqdm") [.call (.name "range") [.name "EPOCHS"] []]
        [("total", .name "EPOCHS")])
     [.assign ["loss"] (.call (.name "svi.step") [.name "X", .name "y"] []),
      .exprStmt
        (.call (.name "losses.append")
           [.bin "/" (.name "loss") (.call (.name "len") [.name "X"] [])] [])],
   .exprStmt (.call (.name "px.line") [.name "losses"] [])]

/-- Regression notebook, cell 9: posterior-predictive sampling with
`Predictive(model, guide, num_samples=10_000)` and the histogram grid of
the sampled coefficients. -/
def regressionCell9 : List PStmt :=
  [.assign ["predictive"]
     (.call (.name "pyro.infer.Predictive") []
        [("model", .name "model"), ("guide", .name "guide"),
         ("num_samples", .intLit 10000)]),
   .assign ["samples"] (.call (.name "predictive") [.name "X"] []),
   .assign ["beta_hat"]
     (.call
        (.attr
           (.call
              (.attr
                 (.call
                    (.attr
                       (.call
                          (.attr (.sub (.name "samples") [.strLit "linear_layer.weight"])
                             "reshape")
                          [.intLit (-1), .intLit 2, .intLit 7] [])
                       "detach")
                    [] [])
                 "cpu")
              [] [])
           "numpy")
        [] []),
   .assign ["beta_hat_prime"]
     (.call (.name "np.moveaxis") [.name "beta_hat", .intLit 0, .intLit (-1)] []),
   .assign ["fig"] (.call (.name "make_subplots") [] [("rows", .intLit 2), ("cols", .intLit 7)]),
   .forIn ["row", "product"]
     (.call (.name "enumerate") [.name "beta_hat_prime"] [("start", .intLit 1)])
     [.forIn ["column", "coefficient_samples"]
        (.call (.name "enumerate") [.name "product"] [("start", .intLit 1)])
        [.exprStmt
           (.call (.name "fig.add_trace")
              [.call (.name "go.Histogram") []
                 [("x", .name "coefficient_samples"),
                  ("name",
                   .fstr
                     [.sub (.name "sales.columns") [.bin "-" (.name "row") (.intLit 1)],
                      .strLit " - ",
                      .sub (.name "media.columns") [.bin "-" (.name "column") (.intLit 1)]])]]
              [("row", .name "row"), ("col", .name "column")])]],
   .exprStmt (.call (.name "fig.show") [] [])]

/-- All code cells of the regression notebook, in notebook order. -/
def regressionNotebook : List (List PStmt) :=
  [regressionCell1, regressionCell2, regressionCell3, regressionCell4,
   regressionCell5, regressionCell6, regressionCell7, regressionCell8,
   regressionCell9]

/-- The statements of the regression notebook, top to bottom. -/
def regressionStmts : List PStmt := regressionNotebook.flatten

/-!
Syntactic embedding of the VAE notebook
(`Part 2 - Variational Autoencoder - Empty Template.ipynb`).  Markdown
cells carry no code and are omitted; the code cells appear in notebook
order.
-/

/-- VAE notebook, cell 1: dependency installation and imports. -/
def vaeCell1 : List PStmt :=
  [.shell "pip3 install -r requirements.txt",
   .importLine "import pyro",
   .importLine "import torch",
   .importLine "from pyro import distributions as dist",
   .importLine "from pyro.nn import PyroModule, PyroSample, PyroParam",
   .importLine "from pyro.contrib.examples.util import MNIST",
   .importLine "import pyro.poutine as poutine",
   .importLine "import torchvision.transforms as transforms",
   .importLine "from torch import nn",
   .importLine "import numpy as np",
   .importLine "from tqdm import tqdm",
   .importLine "from PIL import Image",
   .importLine "from sklearn.manifold import TSNE",
   .importLine "import plotly.express as px",
   .importLine "from torchsummary import summary",
   .importLine "from itertools import chain",
   .importLine "import plotly.express as px"]

/-- VAE notebook, cell 2: the `setup_data_loaders` helper that downloads
the MNIST training and testing sets and wraps them in data loaders. -/
def vaeCell2 : List PStmt :=
  [.funcDef "setup_data_loaders" [("batch_size", some (.intLit 128))]
     [.assign ["root"] (.strLit "./data"),
      .assign ["download"] (.boolLit true),
      .assign ["trans"] (.call (.name "transforms.ToTensor") [] []),
      .assign ["train_set"]
        (.call (.name "MNIST") []
           [("root", .name "root"), ("train", .boolLit true),
            ("transform", .name "trans"), ("download", .name "download")]),
      .assign ["test_set"]
        (.call (.name "MNIST") []
           [("root", .name "root"), ("train", .boolLit false),
            ("transform", .name "trans"), ("download", .name "download")]),
      .assign ["train_loader"]
        (.call (.name "torch.utils.data.DataLoader") []
           [("dataset", .name "train_set"), ("batch_size", .name "batch_size"),
            ("shuffle", .boolLit true)]),
      .assign ["test_loader"]
        (.call (.name "torch.utils.data.DataLoader") []
           [("dataset", .name "test_set"), ("batch_size", .name "batch_size"),
            ("shuffle", .boolLit false)]),
      .ret (.tupleLit [.name "train_loader", .name "test_loader"])]]

/-- The body of `Encoder.__init__`: every layer attribute is the
placeholder `None`. -/
def Encoder.initDef : PStmt :=
  .funcDef "__init__" [("self", none)]
    [.exprStmt (.call (.attr (.call (.name "super") [] []) "__init__") [] []),
     .assign ["self.conv1"] .noneLit,
     .assign ["self.conv2"] .noneLit,
     .assign ["self.batchnorm"] .noneLit,
     .assign ["self.fc_intermediate"] .noneLit,
     .assign ["self.fc_mean"] .noneLit,
     .assign ["self.fc_std"] .noneLit,
     .assign ["self.softplus"] .noneLit,
     .assign ["self.flatten"] .noneLit]

/-- The body of `Encoder.forward`: both outputs are the placeholder
`None`. -/
def Encoder.forwardDef : PStmt :=
  .funcDef "forward" [("self", none), ("X", none)]
    [.assign ["z_loc"] .noneLit,
     .assign ["z_scale"] .noneLit,
     .ret (.tupleLit [.name "z_loc", .name "z_scale"])]

/-- The `Encoder` class: an `nn.Module` whose layers are to be filled in. -/
def Encoder.classAst : PStmt :=
  .classDef "Encoder" ["nn.Module"] [Encoder.initDef, Encoder.forwardDef]

/-- VAE notebook, cell 3: the `Encoder` definition. -/
def vaeCell3 : List PStmt := [Encoder.classAst]

/-- VAE notebook, cell 4: the encoder summary over input shape
`(1, 28, 28)`. -/
def vaeCell4 : List PStmt :=
  [.exprStmt
     (.call (.name "summary")
        [.call (.name "Encoder") [] [],
         .tupleLit [.intLit 1, .intLit 28, .intLit 28]] [])]

/-- The body of `Decoder.__init__`: every layer attribute is the
placeholder `None`. -/
def Decoder.initDef : PStmt :=
  .funcDef "__init__" [("self", none)]
    [.exprStmt (.call (.attr (.call (.name "super") [] []) "__init__") [] []),
     .assign ["self.fc_mean_std"] .noneLit,
     .assign ["self.fc_intermediate"] .noneLit,
     .assign ["self.deconv2"] .noneLit,
     .assign ["self.deconv1"] .noneLit,
     .assign ["self.fc_out"] .noneLit,
     .assign ["self.softplus"] .noneLit,
     .assign ["self.sigmoid"] .noneLit,
     .assign ["self.flatten"] .noneLit]

/-- The body of `Decoder.forward`: the output `loc_out` is the placeholder
`None`, and the return statement unconditionally reshapes it to
`(-1, 1, 28, 28)`. -/
def Decoder.forwardDef : PStmt :=
  .funcDef "forward" [("self", none), ("z", none)]
    [.assign ["loc_out"] .noneLit,
     .ret (.call (.name "loc_out.reshape")
        [.intLit (-1), .intLit 1, .intLit 28, .intLit 28] [])]

/-- The `Decoder` class: an `nn.Module` whose layers are to be filled in. -/
def Decoder.classAst : PStmt :=
  .classDef "Decoder" ["nn.Module"] [Decoder.initDef, Decoder.forwardDef]

/-- VAE notebook, cell 5: the `Decoder` definition. -/
def vaeCell5 : List PStmt := [Decoder.classAst]

/-- VAE notebook, cell 6: the decoder summary over the latent input shape
`(32,)`. -/
def vaeCell6 : List PStmt :=
  [.exprStmt
     (.call (.name "summary")
        [.call (.name "Decoder") [] [], .tupleLit [.intLit 32]] [])]

/-- The body of `VAE.__init__`: encoder, decoder and latent dimension are
all the placeholder `None`. -/
def VAE.initDef : PStmt :=
  .funcDef "__init__" [("self", none)]
    [.exprStmt (.call (.attr (.call (.name "super") [] []) "__init__") [] []),
     .assign ["self.encoder"] .noneLit,
     .assign ["self.decoder"] .noneLit,
     .assign ["self.z_dim"] .noneLit]

/-- The body of `VAE.model`: a placeholder `pass` where the decoder should
be registered, a `with None:` placeholder plate, `None` placeholders for
the latent parameters and decoded output, and `pyro.sample` calls whose
distribution argument is the placeholder `None`. -/
def VAE.modelDef : PStmt :=
  .funcDef "model" [("self", none), ("X", none)]
    [.passStmt,
     .withBlock .noneLit
       [.assign ["z_loc"] .noneLit,
        .assign ["z_scale"] .noneLit,
        .assign ["z"] (.call (.name "pyro.sample") [.strLit "latent", .noneLit] []),
        .assign ["loc_out"] .noneLit,
        .exprStmt
          (.call (.name "pyro.sample") [.strLit "obs", .noneLit]
             [("obs", .name "X")]),
        .ret (.name "loc_out")]]

/-- The body of `VAE.guide`: a placeholder `pass` where the encoder should
be registered, a `with None:` placeholder plate, a `None` placeholder for
the encoder outputs, and a `pyro.sample` call whose distribution argument
is the placeholder `None`. -/
def VAE.guideDef : PStmt :=
  .funcDef "guide" [("self", none), ("X", none)]
    [.passStmt,
     .withBlock .noneLit
       [.assign ["z_loc", "z_scale"] .noneLit,
        .exprStmt (.call (.name "pyro.sample") [.strLit "latent", .noneLit] [])]]

/-- The body of `VAE.reconstruct_img`: completed boilerplate that encodes
an image, samples the latent space and decodes the sample. -/
def VAE.reconstructImgDef : PStmt :=
  .funcDef "reconstruct_img" [("self", none), ("X", none)]
    [.assign ["z_loc", "z_scale"] (.call (.name "self.encoder") [.name "X"] []),
     .assign ["z"]
       (.call
          (.attr (.call (.name "dist.Normal") [.name "z_loc", .name "z_scale"] [])
             "sample")
          [] []),
     .assign ["loc_img"] (.call (.name "self.decoder") [.name "z"] []),
     .ret (.name "loc_img")]

/-- The `VAE` class: an `nn.Module` combining the encoder and decoder. -/
def VAE.classAst : PStmt :=
  .classDef "VAE" ["nn.Module"]
    [VAE.initDef, VAE.modelDef, VAE.guideDef, VAE.reconstructImgDef]

/-- VAE notebook, cell 7: the `VAE` definition. -/
def vaeCell7 : List PStmt := [VAE.classAst]

/-- VAE notebook, cell 8: the SVI initialization, with the optimizer, the
model, the guide and the loss all left as the placeholder `None`. -/
def vaeCell8 : List PStmt :=
  [.assign ["vae"] (.call (.name "VAE") [] []),
   .assign ["optimizer"] .noneLit,
   .assign ["svi"]
     (.call (.name "pyro.infer.SVI") []
        [("model", .noneLit), ("guide", .noneLit),
         ("optim", .name "optimizer"), ("loss", .noneLit)])]

/-- VAE notebook, cell 9: the training loop.  `EPOCHS` and the loaders are
the placeholder `None`; each epoch takes one `svi.step` per training batch,
normalizes the epoch loss by the training-set size and records it; the cell
ends with the loss-curve plot. -/
def vaeCell9 : List PStmt :=
  [.assign ["EPOCHS"] .noneLit,
   .assign ["train_loader", "test_loader"] .noneLit,
   .exprStmt (.call (.name "pyro.clear_param_store") [] []),
   .assign ["loss"] (.listLit []),
   .forIn ["epoch"]
     (.call (.name "tqdm") [.call (.name "range") [.name "EPOCHS"] []]
        [("total", .name "EPOCHS")])
     [.assign ["epoch_loss"] (.intLit 0),
      .forIn ["batch", "_"] (.name "train_loader")
        [.augAdd "epoch_loss" (.call (.name "svi.step") [.name "batch"] [])],
      .assign ["normalizer_train"]
        (.call (.name "len") [.name "train_loader.dataset"] []),
      .assign ["total_epoch_loss_train"]
        (.bin "/" (.name "epoch_loss") (.name "normalizer_train")),
      .exprStmt (.call (.name "loss.append") [.name "total_epoch_loss_train"] []),
      .ifBlock (.bin "==" (.bin "%" (.name "epoch") (.intLit 10)) (.intLit 0))
        [.exprStmt (.call (.name "print") [.name "total_epoch_loss_train"] [])]],
   .exprStmt (.call (.name "px.line") [.name "loss"] [])]

/-- The `evaluate` function of the VAE notebook: accumulates
`svi.evaluate_loss` over every test batch and divides by the size of the
test dataset. -/
def evaluateDef : PStmt :=
  .funcDef "evaluate" [("svi", none), ("test_loader", none)]
    [.assign ["test_loss"] (.floatLit 0),
     .forIn ["x", "_"] (.name "test_loader")
       [.augAdd "test_loss" (.call (.name "svi.evaluate_loss") [.name "x"] [])],
     .assign ["normalizer_test"]
       (.call (.name "len") [.name "test_loader.dataset"] []),
     .assign ["total_epoch_loss_test"]
       (.bin "/" (.name "test_loss") (.name "normalizer_test")),
     .ret (.name "total_epoch_loss_test")]

/-- VAE notebook, cell 10: the `evaluate` definition and its invocation on
the test loader. -/
def vaeCell10 : List PStmt :=
  [evaluateDef,
   .exprStmt
     (.call (.name "evaluate") []
        [("svi", .name "svi"), ("test_loader", .name "test_loader")])]

/-- VAE notebook, cell 11: the t-SNE projection of the test images in
latent space. -/
def vaeCell11 : List PStmt :=
  [.assign ["latent_images"]
     (.listComp
        (.call
           (.attr
              (.call
                 (.attr
                    (.call
                       (.attr
                          (.sub (.call (.name "vae.encoder") [.name "img"] [])
                             [.intLit 0])
                          "detach")
                       [] [])
                    "cpu")
                 [] [])
              "numpy")
           [] [])
        ["img", "_"] (.name "test_loader")),
   .assign ["labels"]
     (.listComp
        (.call
           (.attr
              (.call
                 (.attr (.call (.attr (.call (.name "label.detach") [] []) "cpu") [] [])
                    "numpy")
                 [] [])
              "astype")
           [.name "str"] [])
        ["_", "label"] (.name "test_loader")),
   .assign ["labels"]
     (.call (.name "list") [.call (.name "chain.from_iterable") [.name "labels"] []] []),
   .assign ["latent_images"]
     (.call (.name "np.concatenate") [.name "latent_images"] [("axis", .intLit 0)]),
   .assign ["tsne"]
     (.call (.name "TSNE") []
        [("n_components", .intLit 2), ("n_jobs", .intLit (-1)),
         ("random_state", .intLit 0), ("verbose", .intLit 10)]),
   .assign ["latent_embedding"] (.call (.name "tsne.fit_transform") [.name "latent_images"] []),
   .exprStmt
     (.call (.name "px.scatter") []
        [("x", .sub (.name "latent_embedding") [.sliceAll, .intLit 0]),
         ("y", .sub (.name "latent_embedding") [.sliceAll, .intLit 1]),
         ("color", .name "labels")])]

/-- VAE notebook, cell 12: sampling new images; the inputs are the
placeholder `None`, and `gen` is a small generator helper. -/
def vaeCell12 : List PStmt :=
  [.assign ["zeros"] .noneLit,
   .assign ["sample_loc"] .noneLit,
   .funcDef "gen" [("imgs", none)]
     [.forIn ["img"] (.name "imgs") [.yieldStmt (.name "img")]],
   .assign ["imgs"] (.call (.name "gen") [] [("imgs", .name "sample_loc")])]

/-- VAE notebook, cell 13: displaying a generated image, with the
placeholder `None` as the array argument. -/
def vaeCell13 : List PStmt :=
  [.exprStmt
     (.call (.attr (.call (.name "Image.fromarray") [.noneLit] []) "resize")
        [.tupleLit [.intLit 100, .intLit 100]] [])]

/-- All code cells of the VAE notebook, in notebook order. -/
def vaeNotebook : List (List PStmt) :=
  [vaeCell1, vaeCell2, vaeCell3, vaeCell4, vaeCell5, vaeCell6, vaeCell7,
   vaeCell8, vaeCell9, vaeCell10, vaeCell11, vaeCell12, vaeCell13]

/-- The statements of the VAE notebook, top to bottom. -/
def vaeStmts : List PStmt := vaeNotebook.flatten

/-!
Derived analyses over the embedded notebooks.
-/

/-- Whether a statement applies (anywhere in its own expressions, not in
nested statements) a call with the given dotted name. -/
def stmtHasCall (fuel : Nat) (fn : String) (s : PStmt) : Bool :=
  match subExprsL fuel s.topExprs with
  | some es => (es.filterMap callNameOf).contains fn
  | none => false

/-- Position, in the pre-order statement list of a block, of the first
statement applying a call with the given name. -/
def firstCallIdx (fuel : Nat) (fn : String) (ss : List PStmt) : Option Nat :=
  (flattenStmts fuel ss).bind (·.findIdx? (stmtHasCall fuel fn))

/-- Position of the first definition of the class with the given name. -/
def firstClassIdx (fuel : Nat) (cname : String) (ss : List PStmt) : Option Nat :=
  (flattenStmts fuel ss).bind
    (·.findIdx? (fun s =>
       match s with
       | .classDef n _ _ => n == cname
       | _ => false))

/-- Position of the first definition of the function with the given name. -/
def firstFuncIdx (fuel : Nat) (fname : String) (ss : List PStmt) : Option Nat :=
  (flattenStmts fuel ss).bind
    (·.findIdx? (fun s =>
       match s with
       | .funcDef n _ _ => n == fname
       | _ => false))

/-- The calls that visualize results in the two notebooks: the loss-curve
plot, the t-SNE scatter plot, the posterior histograms, and the generated
image display.  Model-structure introspection (`pyro.render_model`,
`summary`, `print(trace.format_shapes())`) visualizes the model, not
results. -/
def resultVizNames : List String :=
  ["px.line", "px.scatter", "go.Histogram", "fig.show", "Image.fromarray"]

/-- Whether a statement performs a result visualization. -/
def isVizStmt (fuel : Nat) (s : PStmt) : Bool :=
  resultVizNames.any (fun n => stmtHasCall fuel n s)

/-- Positions of all result-visualization statements of a block. -/
def vizIdxs (fuel : Nat) (ss : List PStmt) : Option (List Nat) :=
  (flattenStmts fuel ss).map
    (fun l => l.enum.filterMap (fun p => if isVizStmt fuel p.2 then some p.1 else none))

/-- Whether a list of optional positions is a chain of strictly increasing
found positions. -/
def strictChain : List (Option Nat) → Bool
  | [] => true
  | [x] => x.isSome
  | x :: y :: rest =>
      match x, y with
      | some a, some b => decide (a < b) && strictChain (y :: rest)
      | _, _ => false

/-- Whether every position in the list comes strictly after the base
position (and both scans succeeded). -/
def allAfter (base : Option Nat) (l : Option (List Nat)) : Bool :=
  match base, l with
  | some b, some xs => xs.all (fun i => decide (b < i))
  | _, _ => false

/-- Whether a statement is original error handling: a `try`/`except` block
or a `raise`. -/
def isErrorHandling : PStmt → Bool
  | .tryBlock _ _ => true
  | .raiseStmt _ => true
  | _ => false

/-- Number of `try`/`except` blocks and `raise` statements in a block. -/
def errorHandlingCount (fuel : Nat) (ss : List PStmt) : Option Nat :=
  (flattenStmts fuel ss).map (·.countP isErrorHandling)

/-- Every class definition of a block, with its base classes. -/
def classBasesOf (fuel : Nat) (ss : List PStmt) : Option (List (String × List String)) :=
  (flattenStmts fuel ss).map
    (·.filterMap (fun s =>
       match s with
       | .classDef n bs _ => some (n, bs)
       | _ => none))

/-- Every call whose (dotted or method) name mentions `parquet`, with its
positional arguments. -/
def parquetCalls (fuel : Nat) (ss : List PStmt) : Option (List (String × List PExpr)) :=
  (deepExprs fuel ss).map
    (·.filterMap (fun e =>
       match e with
       | .call (.name f) args _ =>
           if containsSub f "parquet" then some (f, args) else none
       | .call (.attr _ m) args _ =>
           if containsSub m "parquet" then some ("." ++ m, args) else none
       | _ => none))

/-- The names of every class and function a block defines, in order. -/
def definedNames (fuel : Nat) (ss : List PStmt) : Option (List String) :=
  (flattenStmts fuel ss).map
    (·.filterMap (fun s =>
       match s with
       | .funcDef n _ _ => some n
       | .classDef n _ _ => some n
       | _ => none))

/-- The shapes handed to the `torchsummary.summary` calls of a block. -/
def summaryShapes (fuel : Nat) (ss : List PStmt) : Option (List (List PExpr)) :=
  (deepExprs fuel ss).map
    (·.filterMap (fun e =>
       match e with
       | .call (.name "summary") [_, .tupleLit dims] _ => some dims
       | _ => none))

/-- The expression returned by `Decoder.forward`. -/
def Decoder.forwardReturn : Option PExpr :=
  match Decoder.forwardDef with
  | .funcDef _ _ body =>
      body.getLast?.bind (fun s =>
        match s with
        | .ret e => some e
        | _ => none)
  | _ => none

/-- The parameter list of `RevenueModel.forward`. -/
def RevenueModel.forwardParams : Option (List (String × Option PExpr)) :=
  match RevenueModel.forwardDef with
  | .funcDef _ ps _ => some ps
  | _ => none

/-- The four classes named by the specification. -/
def specClasses : List PStmt :=
  [Encoder.classAst, Decoder.classAst, VAE.classAst, RevenueModel.classAst]

/-- The literal reading of claim C1 for a single class: its body holds at
least one fill-in placeholder and not a single completed (substantive)
statement of its own. -/
def isUnfilledTemplate (c : PStmt) : Bool :=
  match placeholderCount FUEL c.childStmts, sbCount FUEL c.childStmts with
  | some ph, some sb => decide (0 < ph) && sb == 0
  | _, _ => false

/-- Placeholders in a whole notebook. -/
def notebookPlaceholders (nb : List (List PStmt)) : Option Nat :=
  placeholderCount FUEL nb.flatten

/-!
Semantic model of the training loops (regression notebook cell 8, VAE
notebook cell 9).  The SVI driver's `step` is framework code; it is taken
as an abstract state transformer computing a loss and a new parameter
store, and the loops below mirror the Python loop bodies statement by
statement, additionally counting how often `step` is invoked.
-/

/-- The epoch count of the regression notebook: `EPOCHS = 1_000`. -/
def EPOCHS_regression : Nat := 1000

/-- The epoch count of the VAE notebook as shipped: the template leaves it
as the placeholder `None`. -/
def EPOCHS_vae : Option Nat := none

/-- The state threaded through a training loop: the Pyro parameter store,
the number of `svi.step` calls made so far, and the recorded losses. -/
structure TrainState (σ : Type) where
  store : σ
  stepCalls : Nat
  losses : List ℚ

/-- The body of one regression training epoch:
`loss = svi.step(X, y); losses.append(loss / len(X))`. -/
def regressionEpoch {σ : Type} (step : σ → ℚ × σ) (lenX : ℚ)
    (st : TrainState σ) : TrainState σ :=
  ⟨(step st.store).2, st.stepCalls + 1, st.losses ++ [(step st.store).1 / lenX]⟩

/-- The regression training loop:
`for epoch in tqdm(range(EPOCHS), total=EPOCHS): ...` with
`EPOCHS = 1_000`. -/
def regressionTrainingLoop {σ : Type} (step : σ → ℚ × σ) (lenX : ℚ)
    (s0 : σ) : TrainState σ :=
  (List.range EPOCHS_regression).foldl
    (fun st _ => regressionEpoch step lenX st) ⟨s0, 0, []⟩

/-- One training batch of the VAE loop: `epoch_loss += svi.step(batch)`;
the accumulator carries the running epoch loss. -/
def vaeBatchStep {σ β : Type} (step : σ → β → ℚ × σ)
    (acc : ℚ × TrainState σ) (batch : β) : ℚ × TrainState σ :=
  (acc.1 + (step acc.2.store batch).1,
   ⟨(step acc.2.store batch).2, acc.2.stepCalls + 1, acc.2.losses⟩)

/-- One epoch of the VAE training loop: iterate `svi.step` over the
training batches, then append the epoch loss normalized by
`len(train_loader.dataset)` (the `if epoch % 10 == 0: print(...)` of the
source only prints and has no effect on the state). -/
def vaeEpoch {σ β : Type} (step : σ → β → ℚ × σ) (batches : List β)
    (normalizer : ℚ) (st : TrainState σ) : TrainState σ :=
  ⟨(batches.foldl (vaeBatchStep step) (0, st)).2.store,
   (batches.foldl (vaeBatchStep step) (0, st)).2.stepCalls,
   st.losses ++ [(batches.foldl (vaeBatchStep step) (0, st)).1 / normalizer]⟩

/-- The VAE training cell: `for epoch in tqdm(range(EPOCHS), ...)`.
Python's `range` rejects a `None` argument with a `TypeError`, so the loop
only runs once a number has been filled in for `EPOCHS`. -/
def vaeTrainingLoop {σ β : Type} (epochs : Option Nat) (step : σ → β → ℚ × σ)
    (batches : List β) (normalizer : ℚ) (s0 : σ) :
    Except String (TrainState σ) :=
  match epochs with
  | none => .error "TypeError: NoneType object cannot be interpreted as an integer"
  | some n =>
      .ok ((List.range n).foldl
        (fun st _ => vaeEpoch step batches normalizer st) ⟨s0, 0, []⟩)

/-- The literal reading of claim C4: both notebooks' training loops run a
fixed number of epochs (1000 in the regression notebook; some number in
the VAE notebook). -/
def bothLoopsHaveFixedEpochCounts : Prop :=
  EPOCHS_regression = 1000 ∧ ∃ n, EPOCHS_vae = some n

/-!
Semantic model of the `evaluate` function (VAE notebook cell 10).
-/

/-- A test data loader as `evaluate` uses it: the batches it yields and
the size of the underlying dataset (`len(test_loader.dataset)`). -/
structure TestLoader (β : Type) where
  batches : List β
  datasetSize : ℚ

/-- The SVI driver as `evaluate` sees it: a parameter store, the updating
`step`, and `evaluate_loss`.  That `evaluate_loss` leaves the store
unchanged is framework behaviour, recorded as the field `eval_loss_pure`;
it is modelled from the notebook's own comment: when calculating the loss
on a test sample, `evaluate_loss` is called instead of `step` so as not to
take a step in the parameter space. -/
structure SVIDriver (σ β : Type) where
  store : σ
  step : σ → β → ℚ × σ
  evaluate_loss : σ → β → ℚ × σ
  eval_loss_pure : ∀ s b, (evaluate_loss s b).2 = s

/-- The `evaluate` function of the VAE notebook: starts from
`test_loss = 0.`, accumulates `svi.evaluate_loss(x)` over every test batch
(threading the parameter store exactly as the interpreter would), and
returns the accumulated loss divided by the dataset size.  The returned
pair also exposes the final parameter store. -/
def evaluate {σ β : Type} (svi : SVIDriver σ β) (test_loader : TestLoader β) :
    ℚ × σ :=
  ((test_loader.batches.foldl
      (fun acc x => (acc.1 + (svi.evaluate_loss acc.2 x).1,
                     (svi.evaluate_loss acc.2 x).2))
      ((0 : ℚ), svi.store)).1 / test_loader.datasetSize,
   (test_loader.batches.foldl
      (fun acc x => (acc.1 + (svi.evaluate_loss acc.2 x).1,
                     (svi.evaluate_loss acc.2 x).2))
      ((0 : ℚ), svi.store)).2)

/-!
Semantic model of the decoder's final reshape (VAE notebook cell 5).
-/

/-- PyTorch reshape with one inferred dimension:
`t.reshape(-1, d1, ..., dk)` on a tensor of `numel` elements succeeds iff
the product of the given dimensions is nonzero and divides `numel`, and
the inferred leading dimension is the quotient. -/
def reshapeInferFirst (numel : Nat) (dims : List Nat) : Option (List Nat) :=
  if dims.prod ≠ 0 ∧ dims.prod ∣ numel then some (numel / dims.prod :: dims)
  else none

/-- The final, unconditional operation of `Decoder.forward`:
`return loc_out.reshape(-1, 1, 28, 28)`, as a function of the number of
elements of `loc_out` (whatever value the completed template computes for
it). -/
def decoderForwardShape (numel : Nat) : Option (List Nat) :=
  reshapeInferFirst numel [1, 28, 28]

/-!
Semantic model of `RevenueModel.forward` and the `Predictive` sampler
(regression notebook cells 4 and 9).
-/

/-- Dot product of two rational vectors. -/
def dotList (xs ys : List ℚ) : ℚ := ((xs.zip ys).map (fun p => p.1 * p.2)).sum

/-- The linear layer `nn.Linear(in_features=media_channels,
out_features=sales_products)` as a pure function of its weight matrix
(one row per output) and bias vector, applied to each input row. -/
def linearApply (weight : List (List ℚ)) (bias : List ℚ)
    (X : List (List ℚ)) : List (List ℚ) :=
  X.map (fun row => (weight.zip bias).map (fun wb => dotList wb.1 row + wb.2))

/-- What the `obs` sample site of `RevenueModel.forward` records:
`pyro.sample("obs", dist.Normal(y_hat, noise), obs=y)` conditions the site
on `y` when `y` is given, and draws a value when `y` is `None`. -/
inductive ObsSite where
  | conditioned : List (List ℚ) → ObsSite
  | unconditioned : List (List ℚ) → ObsSite

/-- Whether the `obs` site was conditioned on supplied targets. -/
def ObsSite.isConditioned : ObsSite → Bool
  | .conditioned _ => true
  | _ => false

/-- The sample sites recorded by one execution of
`RevenueModel.forward`: the "noise" draw and the "obs" site. -/
structure ForwardTrace where
  noiseDraw : List ℚ
  obs : ObsSite

/-- `RevenueModel.forward(self, X, y=None)`: computes
`y_hat = self.linear_layer(X)`, samples the "noise" site, samples or
observes the "obs" site inside the two plates, and returns `y_hat`.  The
stochastic draws are passed in explicitly: `noiseDraw` for the "noise"
site and `obsDraw` for the value the "obs" site draws when it is not
conditioned. -/
def RevenueModel.forward (weight : List (List ℚ)) (bias : List ℚ)
    (noiseDraw : List ℚ) (obsDraw : List (List ℚ))
    (X : List (List ℚ)) (y : Option (List (List ℚ))) :
    List (List ℚ) × ForwardTrace :=
  (linearApply weight bias X,
   ⟨noiseDraw,
    match y with
    | some yv => .conditioned yv
    | none => .unconditioned obsDraw⟩)

/-- `Predictive(model=model, guide=guide, num_samples=10_000)`. -/
def Predictive.num_samples : Nat := 10000

/-- `samples = predictive(X)`: the `Predictive` sampler invokes the model
`num_samples` times with `X` as the only argument, so `y` takes its
default `None` on every invocation; `draws i` supplies the stochastic
draws of the i-th invocation. -/
def predictiveSamples (weight : List (List ℚ)) (bias : List ℚ)
    (draws : Nat → List ℚ × List (List ℚ)) (X : List (List ℚ)) :
    List (List (List ℚ) × ForwardTrace) :=
  (List.range Predictive.num_samples).map
    (fun i => RevenueModel.forward weight bias (draws i).1 (draws i).2 X none)

/-!
Helper lemmas about the loop models.
-/

/-- Folding the regression epoch body adds one `svi.step` call and one
recorded loss per iteration. -/
theorem regressionLoop_counts {σ : Type} (step : σ → ℚ × σ) (lenX : ℚ)
    (l : List Nat) (st : TrainState σ) :
    ((l.foldl (fun st _ => regressionEpoch step lenX st) st).stepCalls
        = st.stepCalls + l.length)
  ∧ ((l.foldl (fun st _ => regressionEpoch step lenX st) st).losses.length
        = st.losses.length + l.length) := by
  induction l generalizing st with
  | nil => simp
  | cons a t ih =>
      have h := ih (regressionEpoch step lenX st)
      constructor
      · rw [List.foldl_cons, h.1]
        simp [regressionEpoch]
        omega
      · rw [List.foldl_cons, h.2]
        simp [regressionEpoch]
        omega

/-- Folding the VAE batch body adds one `svi.step` call per batch and
leaves the recorded losses unchanged. -/
theorem vaeBatches_counts {σ β : Type} (step : σ → β → ℚ × σ)
    (bs : List β) (acc : ℚ × TrainState σ) :
    ((bs.foldl (vaeBatchStep step) acc).2.stepCalls
        = acc.2.stepCalls + bs.length)
  ∧ ((bs.foldl (vaeBatchStep step) acc).2.losses = acc.2.losses) := by
  induction bs generalizing acc with
  | nil => simp
  | cons b t ih =>
      have h := ih (vaeBatchStep step acc b)
      constructor
      · rw [List.foldl_cons, h.1]
        simp [vaeBatchStep]
        omega
      · rw [List.foldl_cons, h.2]
        simp [vaeBatchStep]

/-- One VAE epoch takes one `svi.step` per training batch and records
exactly one loss. -/
theorem vaeEpoch_counts {σ β : Type} (step : σ → β → ℚ × σ)
    (batches : List β) (normalizer : ℚ) (st : TrainState σ) :
    ((vaeEpoch step batches normalizer st).stepCalls
        = st.stepCalls + batches.length)
  ∧ ((vaeEpoch step batches normalizer st).losses.length
        = st.losses.length + 1) := by
  have h := vaeBatches_counts step batches ((0 : ℚ), st)
  unfold vaeEpoch
  refine ⟨?_, ?_⟩
  · simpa using h.1
  · simp

/-- Folding VAE epochs multiplies the `svi.step` count by the number of
batches and records one loss per epoch. -/
theorem vaeLoop_counts {σ β : Type} (step : σ → β → ℚ × σ)
    (batches : List β) (normalizer : ℚ) (l : List Nat) (st : TrainState σ) :
    ((l.foldl (fun st _ => vaeEpoch step batches normalizer st) st).stepCalls
        = st.stepCalls + l.length * batches.length)
  ∧ ((l.foldl (fun st _ => vaeEpoch step batches normalizer st) st).losses.length
        = st.losses.length + l.length) := by
  induction l generalizing st with
  | nil => simp
  | cons a t ih =>
      have h := ih (vaeEpoch step batches normalizer st)
      have hc := vaeEpoch_counts step batches normalizer st
      constructor
      · rw [List.foldl_cons, h.1, hc.1]
        simp [List.length_cons, Nat.succ_mul]
        omega
      · rw [List.foldl_cons, h.2, hc.2]
        simp
        omega

/-- The `evaluate` fold accumulates the per-batch `evaluate_loss` values
and leaves the parameter store untouched, by the framework law
`eval_loss_pure`. -/
theorem evaluate_fold {σ β : Type} (svi : SVIDriver σ β) (bs : List β)
    (a : ℚ) (s : σ) :
    bs.foldl (fun acc x => (acc.1 + (svi.evaluate_loss acc.2 x).1,
                            (svi.evaluate_loss acc.2 x).2)) (a, s)
      = (a + (bs.map (fun b => (svi.evaluate_loss s b).1)).sum, s) := by
  induction bs generalizing a with
  | nil => simp
  | cons b t ih =>
      rw [List.foldl_cons]
      have hp : (svi.evaluate_loss s b).2 = s := svi.eval_loss_pure s b
      show t.foldl _ (a + (svi.evaluate_loss s b).1, (svi.evaluate_loss s b).2) = _
      rw [hp, ih]
      simp [add_assoc]

/-!
The claims.
-/

/-- C1, counterexample: the claim that all four of `Encoder`, `Decoder`,
`VAE` and `RevenueModel` are unfilled templates whose method bodies hold
only placeholder values and no completed behaviour fails at
`RevenueModel`: its class body holds zero placeholder statements and six
completed statements (the layer construction, the two `PyroSample`
priors, the `y_hat` computation, the `noise` draw and the `obs` sample),
so not every class the spec names is an unfilled template. -/
theorem C1_counterexample :
    isUnfilledTemplate RevenueModel.classAst = false
  ∧ placeholderCount FUEL RevenueModel.classAst.childStmts = some 0
  ∧ sbCount FUEL RevenueModel.classAst.childStmts = some 6
  ∧ ¬ (∀ c ∈ specClasses, isUnfilledTemplate c = true) := by
  refine ⟨rfl, rfl, rfl, ?_⟩
  intro h
  have hr := h RevenueModel.classAst (by simp [specClasses])
  exact absurd hr (by decide)

/-- C1, amended: `Encoder` and `Decoder` are unfilled templates (their
bodies hold placeholders and not one completed statement); `VAE` holds
fourteen placeholder statements and its `__init__`, `model` and `guide`
hold no completed statement (its only completed statements are the three
lines of the `reconstruct_img` boilerplate); `RevenueModel`, by contrast,
holds no placeholder at all and six completed statements. -/
theorem C1_amended :
    isUnfilledTemplate Encoder.classAst = true
  ∧ isUnfilledTemplate Decoder.classAst = true
  ∧ placeholderCount FUEL VAE.classAst.childStmts = some 14
  ∧ sbCount FUEL [VAE.initDef] = some 0
  ∧ sbCount FUEL [VAE.modelDef] = some 0
  ∧ sbCount FUEL [VAE.guideDef] = some 0
  ∧ sbCount FUEL [VAE.reconstructImgDef] = some 3
  ∧ placeholderCount FUEL RevenueModel.classAst.childStmts = some 0
  ∧ sbCount FUEL RevenueModel.classAst.childStmts = some 6 :=
  ⟨rfl, rfl, rfl, rfl, rfl, rfl, rfl, rfl, rfl⟩

/-- C2: exactly one of the two notebooks is a fill-in-the-blank template:
the regression notebook holds zero placeholder statements overall (in
particular its model, guide, training and inference cells hold none),
while the VAE notebook holds forty, with the encoder, decoder, model and
guide bodies each holding several (`None`-assigned attributes, statements
replaced by a bare `pass`, `with None:` plates, `None` distribution
arguments). -/
theorem C2_notebook_roles :
    notebookPlaceholders regressionNotebook = some 0
  ∧ notebookPlaceholders vaeNotebook = some 40
  ∧ placeholderCount FUEL [Encoder.initDef] = some 8
  ∧ placeholderCount FUEL [Encoder.forwardDef] = some 2
  ∧ placeholderCount FUEL [Decoder.initDef] = some 8
  ∧ placeholderCount FUEL [Decoder.forwardDef] = some 1
  ∧ placeholderCount FUEL [VAE.modelDef] = some 7
  ∧ placeholderCount FUEL [VAE.guideDef] = some 4
  ∧ placeholderCount FUEL regressionCell4 = some 0
  ∧ placeholderCount FUEL regressionCell7 = some 0
  ∧ placeholderCount FUEL regressionCell8 = some 0
  ∧ placeholderCount FUEL regressionCell9 = some 0 :=
  ⟨rfl, rfl, rfl, rfl, rfl, rfl, rfl, rfl, rfl, rfl, rfl, rfl⟩

/-- C3: the tensor shapes the VAE notebook fixes: the encoder is
summarized over input shape `(1, 28, 28)` (single-channel 28 by 28
images), the decoder over the 32-dimensional latent input shape `(32,)`,
and `Decoder.forward` returns its output reshaped to `(-1, 1, 28, 28)`. -/
theorem C3_tensor_shapes :
    summaryShapes FUEL vaeStmts
      = some [[.intLit 1, .intLit 28, .intLit 28], [.intLit 32]]
  ∧ Decoder.forwardReturn
      = some (.call (.name "loc_out.reshape")
          [.intLit (-1), .intLit 1, .intLit 28, .intLit 28] []) :=
  ⟨rfl, rfl⟩

/-- C4, counterexample: the claim that each notebook's training loop
iterates exactly `EPOCHS` times fails for the VAE notebook as shipped:
its `EPOCHS` is the placeholder `None`, there is no fixed epoch count,
and running the training cell raises a `TypeError` at `range(None)`
instead of iterating. -/
theorem C4_counterexample :
    EPOCHS_vae = none
  ∧ ¬ bothLoopsHaveFixedEpochCounts
  ∧ vaeTrainingLoop EPOCHS_vae (fun (s : Unit) (_ : Unit) => ((0 : ℚ), s)) [] 1 ()
      = .error "TypeError: NoneType object cannot be interpreted as an integer" := by
  refine ⟨rfl, ?_, rfl⟩
  rintro ⟨-, n, hn⟩
  simp [EPOCHS_vae] at hn

/-- C4, amended: the regression training loop iterates exactly
`EPOCHS = 1_000` times, calling `svi.step` once per iteration and
recording one loss per iteration, and terminates after that fixed count;
the VAE training loop's `EPOCHS` is the placeholder `None` as shipped,
and once a count `n` is filled in the loop iterates exactly `n` times,
calling `svi.step` once per batch per iteration, and terminates. -/
theorem C4_amended :
    (∀ (σ : Type) (step : σ → ℚ × σ) (lenX : ℚ) (s0 : σ),
        (regressionTrainingLoop step lenX s0).stepCalls = EPOCHS_regression
      ∧ (regressionTrainingLoop step lenX s0).losses.length = EPOCHS_regression)
  ∧ EPOCHS_regression = 1000
  ∧ EPOCHS_vae = none
  ∧ (∀ (σ β : Type) (n : Nat) (step : σ → β → ℚ × σ) (batches : List β)
       (normalizer : ℚ) (s0 : σ),
       ∃ st, vaeTrainingLoop (some n) step batches normalizer s0 = .ok st
         ∧ st.stepCalls = n * batches.length
         ∧ st.losses.length = n) := by
  refine ⟨?_, rfl, rfl, ?_⟩
  · intro σ step lenX s0
    have h := regressionLoop_counts step lenX (List.range EPOCHS_regression)
      ⟨s0, 0, []⟩
    unfold regressionTrainingLoop
    constructor
    · rw [h.1]; simp
    · rw [h.2]; simp
  · intro σ β n step batches normalizer s0
    have h := vaeLoop_counts step batches normalizer (List.range n) ⟨s0, 0, []⟩
    refine ⟨_, rfl, ?_, ?_⟩
    · rw [h.1]; simp
    · rw [h.2]; simp

/-- C5: the only parquet reads in either notebook are the regression
notebook's two `pd.read_parquet` calls on `./assets/media_prepped.parquet`
and `./assets/sales_prepped.parquet` (no call in either notebook so much
as mentions `parquet` otherwise), and the only classes and functions
either notebook defines are the model, guide, autoencoder, data-loading
and plotting helpers listed here — none of them a persisted file
format. -/
theorem C5_parquet_reads :
    parquetCalls FUEL regressionStmts
      = some [("pd.read_parquet", [.strLit "./assets/media_prepped.parquet"]),
              ("pd.read_parquet", [.strLit "./assets/sales_prepped.parquet"])]
  ∧ parquetCalls FUEL vaeStmts = some []
  ∧ definedNames FUEL regressionStmts
      = some ["RevenueModel", "__init__", "forward", "RevenueGuide"]
  ∧ definedNames FUEL vaeStmts
      = some ["setup_data_loaders", "Encoder", "__init__", "forward",
              "Decoder", "__init__", "forward", "VAE", "__init__", "model",
              "guide", "reconstruct_img", "evaluate", "gen"] :=
  ⟨rfl, rfl, rfl, rfl⟩

/-- C6: neither notebook holds a `try`/`except` block or a `raise`
statement anywhere, and the only classes either notebook defines derive
from `PyroModule`, `AutoDiagonalNormal` or `nn.Module` — none of them an
exception type. -/
theorem C6_no_error_handling :
    errorHandlingCount FUEL regressionStmts = some 0
  ∧ errorHandlingCount FUEL vaeStmts = some 0
  ∧ classBasesOf FUEL regressionStmts
      = some [("RevenueModel", ["PyroModule"]),
              ("RevenueGuide", ["pyro.infer.autoguide.AutoDiagonalNormal"])]
  ∧ classBasesOf FUEL vaeStmts
      = some [("Encoder", ["nn.Module"]), ("Decoder", ["nn.Module"]),
              ("VAE", ["nn.Module"])]
  ∧ (classBasesOf FUEL (regressionStmts ++ vaeStmts)).map
      (·.all (fun cb => cb.2.all
         (fun b => !(containsSub b "Exception" || containsSub b "Error"))))
      = some true :=
  ⟨rfl, rfl, rfl, rfl, rfl⟩

/-- C7: in both notebooks, read top to bottom, the dataset-loading code
comes strictly before the model definition, which comes strictly before
the guide definition, which comes strictly before the first `svi.step`;
every result visualization (loss curve, histograms, t-SNE scatter,
generated image display) comes strictly after the first `svi.step`; and
the first result visualization is the loss-curve `px.line` plot. -/
theorem C7_pipeline_order :
    strictChain [firstCallIdx FUEL "pd.read_parquet" regressionStmts,
                 firstClassIdx FUEL "RevenueModel" regressionStmts,
                 firstClassIdx FUEL "RevenueGuide" regressionStmts,
                 firstCallIdx FUEL "svi.step" regressionStmts,
                 firstCallIdx FUEL "px.line" regressionStmts] = true
  ∧ allAfter (firstCallIdx FUEL "svi.step" regressionStmts)
      (vizIdxs FUEL regressionStmts) = true
  ∧ (vizIdxs FUEL regressionStmts).bind List.head?
      = firstCallIdx FUEL "px.line" regressionStmts
  ∧ strictChain [firstFuncIdx FUEL "setup_data_loaders" vaeStmts,
                 firstClassIdx FUEL "VAE" vaeStmts,
                 firstFuncIdx FUEL "guide" vaeStmts,
                 firstCallIdx FUEL "svi.step" vaeStmts,
                 firstCallIdx FUEL "px.line" vaeStmts] = true
  ∧ allAfter (firstCallIdx FUEL "svi.step" vaeStmts)
      (vizIdxs FUEL vaeStmts) = true
  ∧ (vizIdxs FUEL vaeStmts).bind List.head?
      = firstCallIdx FUEL "px.line" vaeStmts :=
  ⟨rfl, rfl, rfl, rfl, rfl, rfl⟩

/-- C8: whenever the final `reshape(-1, 1, 28, 28)` of `Decoder.forward`
accepts its input (the element count is a positive multiple of 784), the
returned shape is `(N, 1, 28, 28)` for some batch size `N`; and the
return statement of `Decoder.forward` is indeed the unconditional
`loc_out.reshape(-1, 1, 28, 28)`. -/
theorem C8_decoder_output_shape :
    (∀ (numel : Nat) (s : List Nat), decoderForwardShape numel = some s →
        ∃ N, s = [N, 1, 28, 28])
  ∧ Decoder.forwardReturn
      = some (.call (.name "loc_out.reshape")
          [.intLit (-1), .intLit 1, .intLit 28, .intLit 28] []) := by
  constructor
  · intro numel s h
    unfold decoderForwardShape reshapeInferFirst at h
    split at h
    · cases h
      exact ⟨_, rfl⟩
    · cases h
  · rfl

/-- Witness for C8 at the concrete element count 784: the reshape accepts
it and returns the shape `(1, 1, 28, 28)`. -/
theorem C8_witness :
    decoderForwardShape 784 = some [1, 1, 28, 28]
  ∧ ∃ N, ([1, 1, 28, 28] : List Nat) = [N, 1, 28, 28] :=
  ⟨by decide, C8_decoder_output_shape.1 784 [1, 1, 28, 28] (by decide)⟩

/-- C9: `evaluate` returns the sum of `svi.evaluate_loss` over every test
batch divided by the test dataset size, and leaves the parameter store
exactly as it found it (by the framework law that `evaluate_loss` does
not step); syntactically, the body of `evaluate` applies exactly the
calls `svi.evaluate_loss` and `len` — never `svi.step`. -/
theorem C9_evaluate :
    (∀ (σ β : Type) (svi : SVIDriver σ β) (tl : TestLoader β),
        evaluate svi tl
          = ((tl.batches.map (fun b => (svi.evaluate_loss svi.store b).1)).sum
               / tl.datasetSize,
             svi.store))
  ∧ callNames FUEL [evaluateDef] = some ["svi.evaluate_loss", "len"] := by
  constructor
  · intro σ β svi tl
    unfold evaluate
    rw [evaluate_fold]
    simp
  · rfl

/-- C10: `RevenueModel.forward` returns `y_hat = linear_layer(X)` whether
or not targets `y` are supplied; its `y` parameter defaults to `None`;
with `y = None` the `obs` site is unconditioned (a drawn value, not an
observation); and the `Predictive` sampler built with
`num_samples=10_000` invokes the model with `X` alone, producing exactly
10000 samples, every one of whose `obs` sites is unconditioned. -/
theorem C10_forward_default :
    (∀ (w : List (List ℚ)) (b nd : List ℚ) (od X : List (List ℚ))
        (y : Option (List (List ℚ))),
        (RevenueModel.forward w b nd od X y).1 = linearApply w b X)
  ∧ (∀ (w : List (List ℚ)) (b nd : List ℚ) (od X : List (List ℚ)),
        (RevenueModel.forward w b nd od X none).2.obs = .unconditioned od)
  ∧ RevenueModel.forwardParams
      = some [("self", none), ("X", none), ("y", some .noneLit)]
  ∧ Predictive.num_samples = 10000
  ∧ (∀ (w : List (List ℚ)) (b : List ℚ)
        (draws : Nat → List ℚ × List (List ℚ)) (X : List (List ℚ)),
        (predictiveSamples w b draws X).length = Predictive.num_samples)
  ∧ (∀ (w : List (List ℚ)) (b : List ℚ)
        (draws : Nat → List ℚ × List (List ℚ)) (X : List (List ℚ)),
        (predictiveSamples w b draws X).all
          (fun smp => !smp.2.obs.isConditioned) = true) := by
  refine ⟨fun _ _ _ _ _ _ => rfl, fun _ _ _ _ _ => rfl, rfl, rfl, ?_, ?_⟩
  · intro w b draws X
    simp [predictiveSamples]
  · intro w b draws X
    simp only [predictiveSamples, List.all_eq_true, List.mem_map]
    rintro x ⟨i, -, rfl⟩
    rfl
